import Mathlib

/-!
Verification development for the tap-tempo LFO firmware core
(signaling.c and main.c of the attiny84a firmware).

The firmware's global mutable variables are collected into one state
structure `LfoState`; each C function of the core becomes a Lean function
on that state.  Machine integers are modelled as `Nat` (resp. `Int` for
the signed trim offset) with explicit modular reduction where the C code
relies on wrap-around (the two 32-bit phase accumulators, the 8-bit
depth-ratio arithmetic).

Platform constants (CLOCK_FREQUENCY, LFO_MIN_TEMPO, LFO_MAX_TEMPO,
MODE_RESET_MIN_TIME) live in main.h, which is not part of the two core
source files; they are modelled from the spec as noted on each
definition.  The C library generator rand()/srand() is likewise external;
it is modelled as the C standard's reference linear congruential
generator (any deterministic generator gives the same results for the
claims below).

Floating point: the firmware computes the duty cycles and the depth
scaling in single-precision float.  The depth scaling
(CalcSignalDepth, g_depth_offset) involves only quotients x/100 with
x an integer at most 25500; those are exactly the points where the
float rounding error (< 2^-15 here) can never move the value across an
integer boundary, so truncation to an 8-bit integer agrees with the
exact natural-number floor used below.  The duty-cycle values are
modelled as exact rational floors; no theorem below depends on their
low-order bits.
-/

set_option maxRecDepth 40000
set_option maxHeartbeats 2000000

/-- 2^32: modulus of the 32-bit phase accumulators. -/
def UINT32_MOD : Nat := 4294967296

/-- Number of base tempo counts between each time all multipliers align. -/
def MULTIPLIER_ALIGNMENT_OFFSET : Nat := 12

/-- TEMPO_TO_FREQUENCY in signaling.c (1000.0f). -/
def TEMPO_TO_FREQUENCY : Nat := 1000

/-- Size of the waveform table (WAVEFORM_RESOLUTION). -/
def WAVEFORM_RESOLUTION : Nat := 256

/-- Modelled from the spec: CLOCK_FREQUENCY lives in main.h (absent from
the sources); the spec fixes the sample rate as MCU clock / 256 =
31.25 kHz, i.e. an 8 MHz clock. -/
def CLOCK_FREQUENCY : Nat := 8000000

/-- Timer0 sample rate, CLOCK_FREQUENCY / WAVEFORM_RESOLUTION = 31250. -/
def TIMER0_SAMPLE_RATE : Nat := CLOCK_FREQUENCY / WAVEFORM_RESOLUTION

/-- DUTY_CYCLE_DIVISOR = 0x100000000 / TIMER0_SAMPLE_RATE (integer
division, as in the C preprocessor arithmetic). -/
def DUTY_CYCLE_DIVISOR : Nat := UINT32_MOD / TIMER0_SAMPLE_RATE

/-- WAVEFORM_RANDOM_STEP_COUNT in signaling.c. -/
def WAVEFORM_RANDOM_STEP_COUNT : Nat := 8

/-- WAVEFORM_STEP_SIZE = 0xff / WAVEFORM_RANDOM_STEP_COUNT: C integer
division, hence 255 / 8 = 31. -/
def WAVEFORM_STEP_SIZE : Nat := 255 / WAVEFORM_RANDOM_STEP_COUNT

/-- Modelled from the spec: LFO_MIN_TEMPO lives in main.h (absent from
the sources); the spec fixes the tempo range as 0.1 Hz - 20 Hz, and the
slowest rate 0.1 Hz is a 10000 ms period. -/
def LFO_MIN_TEMPO : Nat := 10000

/-- Modelled from the spec: LFO_MAX_TEMPO lives in main.h (absent from
the sources); the fastest rate 20 Hz is a 50 ms period. -/
def LFO_MAX_TEMPO : Nat := 50

/-- Modelled from the spec: MODE_RESET_MIN_TIME lives in main.h (absent
from the sources); the hold-to-reset duration, 2 seconds per the
source comments. -/
def MODE_RESET_MIN_TIME : Nat := 2000

/-- DEFAULT_TEMPO in main.c: 1000 ms. -/
def DEFAULT_TEMPO : Nat := 1000

/-- The Waveform enum of signaling.c:
sine = WaveformSine, rampUp = WaveformRampUp, rampDown = WaveformRampDown,
triangle = WaveformTriangle, square = WaveformSquare,
quadPulse = WaveformQuadPulse, random = WaveformRandom. -/
inductive Waveform where
  | sine | rampUp | rampDown | triangle | square | quadPulse | random
deriving DecidableEq

/-- Numeric value of a Waveform enum constant. -/
def waveformToNat : Waveform → Nat
  | .sine => 0 | .rampUp => 1 | .rampDown => 2 | .triangle => 3
  | .square => 4 | .quadPulse => 5 | .random => 6

/-- Waveform enum constant of a numeric value (inverse of
waveformToNat on 0..6; out-of-range values are C undefined behaviour,
unreached by the single-step changes the callers perform). -/
def waveformOfNat : Nat → Waveform
  | 0 => .sine | 1 => .rampUp | 2 => .rampDown | 3 => .triangle
  | 4 => .square | 5 => .quadPulse | _ => .random

/-- The Multiplier enum of signaling.c (same order as the C enum). -/
inductive Multiplier where
  | whole | dottedHalf | half | dottedQuarter | quarter
  | dottedEighth | eighth | dottedSixteenth | triplet | sixteenth
deriving DecidableEq

/-- Numeric value of a Multiplier enum constant. -/
def multiplierToNat : Multiplier → Nat
  | .whole => 0 | .dottedHalf => 1 | .half => 2 | .dottedQuarter => 3
  | .quarter => 4 | .dottedEighth => 5 | .eighth => 6
  | .dottedSixteenth => 7 | .triplet => 8 | .sixteenth => 9

/-- Multiplier enum constant of a numeric value (inverse of
multiplierToNat on 0..9). -/
def multiplierOfNat : Nat → Multiplier
  | 0 => .whole | 1 => .dottedHalf | 2 => .half | 3 => .dottedQuarter
  | 4 => .quarter | 5 => .dottedEighth | 6 => .eighth
  | 7 => .dottedSixteenth | 8 => .triplet | _ => .sixteenth

/-- k_multiplier_alignment table of signaling.c. -/
def k_multiplier_alignment : Multiplier → Nat
  | .whole => 4 | .dottedHalf => 3 | .half => 2 | .dottedQuarter => 3
  | .quarter => 1 | .dottedEighth => 3 | .eighth => 1
  | .dottedSixteenth => 3 | .triplet => 2 | .sixteenth => 1

/-- Multiplication of a duty cycle by k_multiplier_ratio, truncated to an
integer as the C assignment to the uint32_t g_duty_cycle does.  The C
float literals are modelled as the decimal rationals they print as
(0.25, 0.333334, 0.5, 0.666667, 1.0, 1.333334, 2.0, 2.666667, 3.0, 4.0);
the exact ratios (x1/4, x1/2, x1, x2, x3, x4) are computed exactly by the
float hardware for all in-range duty cycles (they fit in 24 bits), and no
theorem below depends on the low-order bits of the dotted ratios. -/
def applyMultiplierRatio (m : Multiplier) (d : Nat) : Nat :=
  match m with
  | .whole => d * 25 / 100
  | .dottedHalf => d * 333334 / 1000000
  | .half => d * 50 / 100
  | .dottedQuarter => d * 666667 / 1000000
  | .quarter => d
  | .dottedEighth => d * 1333334 / 1000000
  | .eighth => d * 2
  | .dottedSixteenth => d * 2666667 / 1000000
  | .triplet => d * 3
  | .sixteenth => d * 4

/-- k_sine_table of signaling.c: the 64-sample quarter period. -/
def k_sine_table : List Nat :=
  [  0,   0,   0,   0,   1,   1,   1,   2,   2,   3,   4,   5,   5,   6,   7,   9,
    10,  11,  12,  14,  15,  17,  18,  20,  21,  23,  25,  27,  29,  31,  33,  35,
    37,  40,  42,  44,  47,  49,  52,  54,  57,  59,  62,  65,  67,  70,  73,  76,
    79,  82,  85,  88,  90,  93,  97, 100, 103, 106, 109, 112, 115, 118, 121, 124]

/-- Lookup into k_sine_table (indices are 0..63 wherever it is used). -/
def sineSample (i : Nat) : Nat := k_sine_table.getD i 0

/-- Modelled from the spec: the C library generator rand()/srand() is
external to the repository; a pseudo-random generator is a deterministic
function of its seed, modelled as the C standard's reference linear
congruential generator on a 32-bit state. -/
def randNext (st : Nat) : Nat := (st * 1103515245 + 12345) % UINT32_MOD

/-- Modelled from the spec: the value rand() returns from its state
(high bits, 0..32767 as with RAND_MAX = 0x7fff). -/
def randValue (st : Nat) : Nat := (st / 65536) % 32768

/-- CalcSignalDepth of signaling.c, parameterised by the globals it
reads (g_depth_ratio, g_depth_offset).  The C float expression
g_depth_offset + (value * g_depth_ratio) / 100.0f truncated to uint8_t
equals the natural-number floor below (see the file header). -/
def calcSignalDepth (ratio off v : Nat) : Nat :=
  if ratio = 100 then v else off + v * ratio / 100

/-- The depth offset SetDepth recomputes:
255.0f * (100 - g_depth_ratio) / 100.0f truncated to uint8_t, i.e. the
floor of 255 * (100 - ratio) / 100. -/
def depthOffsetOf (ratio : Nat) : Nat := 255 * (100 - ratio) / 100

/-- CalcDepthTable of signaling.c as a function from table index to the
stored byte, for waveform w and depth globals (ratio, off).  Each match
arm is the closed form of the corresponding C loop, whose writes cover
each of the 256 indices exactly once:
* sine: the loop writes T[i], T[255-i], T[127-i], T[128+i] for
  i in [0,63]; solving each target range for the loop variable gives the
  four branches below;
* rampUp / random: T[i] = CalcSignalDepth(i);
* rampDown: T[i] = CalcSignalDepth(0xff - i);
* triangle: T[i] = CalcSignalDepth(2i) for i in [0,127] and
  T[255-i] = T[i];
* square: T[0] = CalcSignalDepth(0), indices 1..0x7f copy T[0], and
  indices 0x80..0xff are assigned the literal 0xff (not depth-scaled);
* quadPulse: T[0xff] = CalcSignalDepth(0) first, then every index in the
  four pulse windows is assigned the literal 0xff and every other index
  copies T[0xff] (the final self-assignment of T[0xff] keeps it). -/
def calcDepthTableFun (w : Waveform) (ratio off : Nat) : Nat → Nat := fun i =>
  match w with
  | .sine =>
      if i < 64 then calcSignalDepth ratio off (sineSample i)
      else if i < 128 then calcSignalDepth ratio off (255 - sineSample (127 - i))
      else if i < 192 then calcSignalDepth ratio off (255 - sineSample (i - 128))
      else calcSignalDepth ratio off (sineSample (255 - i))
  | .rampUp => calcSignalDepth ratio off i
  | .random => calcSignalDepth ratio off i
  | .rampDown => calcSignalDepth ratio off (255 - i)
  | .triangle =>
      if i < 128 then calcSignalDepth ratio off (i * 2)
      else calcSignalDepth ratio off ((255 - i) * 2)
  | .square => if i < 128 then calcSignalDepth ratio off 0 else 255
  | .quadPulse =>
      if i < 16 ∨ (32 ≤ i ∧ i < 48) ∨ (64 ≤ i ∧ i < 80) ∨ (96 ≤ i ∧ i < 112)
      then 255 else calcSignalDepth ratio off 0

/-- The waveform shapes as the spec's words define them in section 4.1
(refinement reference for C2; this definition follows the spec, not the
source).  The sine arm uses the same quarter table, mirrored four ways
exactly as the spec equations state; triangle saturates at 254 per the
spec's wording. -/
def specRawShape (w : Waveform) (i : Nat) : Nat :=
  match w with
  | .sine =>
      if i < 64 then sineSample i
      else if i < 128 then 255 - sineSample (127 - i)
      else if i < 192 then 255 - sineSample (i - 128)
      else sineSample (255 - i)
  | .rampUp => i
  | .random => i
  | .rampDown => 255 - i
  | .triangle => if i < 128 then min (i * 2) 254 else min ((255 - i) * 2) 254
  | .square => if i < 128 then 0 else 255
  | .quadPulse =>
      if i < 16 ∨ (32 ≤ i ∧ i < 48) ∨ (64 ≤ i ∧ i < 80) ∨ (96 ≤ i ∧ i < 112)
      then 255 else 0

/-- All firmware globals mutated by the core, one field per C variable
(signaling.c and main.c).  lastSeed is the observation point recording
the argument of the most recent srand call (it is not a C variable). -/
structure LfoState where
  randomNumber : Nat              -- g_random_number (uint8)
  baseTempo : Nat                 -- g_base_tempo (uint16)
  baseDutyCycle : Nat             -- g_base_duty_cycle (uint32)
  baseTableIndex : Nat            -- g_base_table_index (uint8)
  basePhaseAccumulator : Nat      -- g_base_phase_accumulator (uint32)
  dutyCycle : Nat                 -- g_duty_cycle (uint32)
  tableIndex : Nat                -- g_table_index (uint8)
  phaseAccumulator : Nat          -- g_phase_accumulator (uint32)
  multiplierAlignmentIndex : Nat  -- g_multiplier_alignment_index (uint8)
  waveform : Waveform             -- g_waveform
  multiplier : Multiplier         -- g_multiplier
  tempoAdjustOffset : Int         -- g_tempo_adjust_offset (int16)
  depthRatio : Nat                -- g_depth_ratio (uint8)
  depthOffset : Nat               -- g_depth_offset (uint8)
  depthTable : Nat → Nat          -- g_depth_table (256 bytes)
  tempoOut : Bool                 -- the PORTA TEMPO_OUT level
  pwmOut : Nat                    -- OCR0A (the PWM duty register)
  randState : Nat                 -- the libc generator state (modelled)
  lastSeed : Nat                  -- argument of the last srand call
  isCountingTempo : Bool          -- g_state.is_counting_tempo
  hasReceivedTapInput : Bool      -- g_state.has_received_tap_input
  hasRandomSeed : Bool            -- g_state.has_random_seed
  isCountingModeResetTime : Bool  -- g_state.is_counting_mode_reset_time
  isResettingMode : Bool          -- g_state.is_resetting_mode
  tempoMsCount : Nat              -- g_tempo_ms_count (uint16)
  modeResetMsCount : Nat          -- g_mode_reset_ms_count (uint16)
  speedAdjustMsCount : Nat        -- g_speed_adjustment_ms_count (uint16)

/-- ResetBaseTempo of signaling.c. -/
def resetBaseTempo (s : LfoState) : LfoState :=
  { s with baseTableIndex := 0, basePhaseAccumulator := 0 }

/-- The effective tempo RecalculateTempo converts to a frequency:
g_base_tempo + g_tempo_adjust_offset. -/
def effectiveTempo (s : LfoState) : Nat :=
  ((s.baseTempo : Int) + s.tempoAdjustOffset).toNat

/-- The base duty cycle RecalculateTempo derives from a tempo in
milliseconds: (TEMPO_TO_FREQUENCY / tempo) * DUTY_CYCLE_DIVISOR,
modelled as the exact rational floor (the C computes it in float; no
theorem below depends on the low-order bits). -/
def dutyFromTempo (t : Nat) : Nat := TEMPO_TO_FREQUENCY * DUTY_CYCLE_DIVISOR / t

/-- RecalculateTempo of signaling.c. -/
def recalculateTempo (s : LfoState) : LfoState :=
  let bd := dutyFromTempo (effectiveTempo s)
  { s with baseDutyCycle := bd, dutyCycle := applyMultiplierRatio s.multiplier bd }

/-- AdjustPhaseAccumulation of signaling.c:
g_phase_accumulator = g_base_phase_accumulator *
(k_multiplier_ratio[g_multiplier] * g_multiplier_alignment_index),
with 32-bit wrap-around.  The C float product is modelled as the exact
rational floor; no theorem below reads the resulting accumulator. -/
def adjustPhaseAccumulation (s : LfoState) : LfoState :=
  { s with phaseAccumulator :=
      (applyMultiplierRatio s.multiplier
        (s.basePhaseAccumulator * s.multiplierAlignmentIndex)) % UINT32_MOD }

/-- SetBaseTempo of signaling.c. -/
def setBaseTempo (s : LfoState) (ms : Nat) : LfoState :=
  if ms > LFO_MIN_TEMPO ∨ ms < LFO_MAX_TEMPO then s
  else if s.baseTempo > ms + 2 ∨ s.baseTempo < ms - 2 then
    recalculateTempo { s with baseTempo := ms, tempoAdjustOffset := 0 }
  else s

/-- AlignWaveform of signaling.c: wrap the alignment index at 12, force
the working phase accumulator to 0 on alignment boundaries, and
increment the index. -/
def alignWaveform (s : LfoState) : LfoState :=
  let i := if s.multiplierAlignmentIndex ≥ MULTIPLIER_ALIGNMENT_OFFSET then 0
           else s.multiplierAlignmentIndex
  let s1 := if i % k_multiplier_alignment s.multiplier = 0 then
              { s with phaseAccumulator := 0 } else s
  { s1 with multiplierAlignmentIndex := i + 1 }

/-- StartTempoCount of signaling.c. -/
def startTempoCount (s : LfoState) : LfoState :=
  alignWaveform (resetBaseTempo { s with tempoMsCount := 0, isCountingTempo := true })

/-- StopTempoCount of signaling.c. -/
def stopTempoCount (s : LfoState) : LfoState :=
  let s1 :=
    if s.isCountingTempo then
      let s2 := setBaseTempo { s with isCountingTempo := false } s.tempoMsCount
      { s2 with tempoMsCount := 0 }
    else s
  alignWaveform (resetBaseTempo s1)

/-- TempoCountTimeout of signaling.c. -/
def tempoCountTimeout (s : LfoState) : LfoState :=
  { s with isCountingTempo := false, tempoMsCount := 0 }

/-- ResetSignals of signaling.c. -/
def resetSignals (s : LfoState) : LfoState :=
  let s1 := resetBaseTempo s
  { s1 with phaseAccumulator := 0, tableIndex := 0, multiplierAlignmentIndex := 0 }

/-- SeedRandomNumberGenerator of signaling.c (srand(seed)); lastSeed
records the argument. -/
def seedRandomNumberGenerator (s : LfoState) (seed : Nat) : LfoState :=
  { s with randState := seed, lastSeed := seed }

/-- UpdateRandomNumber of signaling.c:
g_random_number = (rand() % WAVEFORM_RANDOM_STEP_COUNT) * WAVEFORM_STEP_SIZE. -/
def updateRandomNumber (s : LfoState) : LfoState :=
  let st := randNext s.randState
  { s with randState := st,
           randomNumber := randValue st % WAVEFORM_RANDOM_STEP_COUNT * WAVEFORM_STEP_SIZE }

/-- PlotWaveform of signaling.c: advance the working phase accumulator,
emit one PWM sample from the depth table, and on a working-table-index
wrap toggle the TEMPO_OUT pin and refresh the random number. -/
def plotWaveform (s : LfoState) : LfoState :=
  let prev := s.tableIndex
  let acc := (s.phaseAccumulator + s.dutyCycle) % UINT32_MOD
  let idx := acc / 16777216
  let pwm := if s.waveform = Waveform.random then s.depthTable s.randomNumber
             else s.depthTable idx
  let s1 := { s with phaseAccumulator := acc, tableIndex := idx, pwmOut := pwm }
  if prev > idx then updateRandomNumber { s1 with tempoOut := !s1.tempoOut } else s1

/-- ISR(TIM0_OVF_vect) of main.c: advance the base phase accumulator and
its table index, then PlotWaveform. -/
def timer0Step (s : LfoState) : LfoState :=
  let acc := (s.basePhaseAccumulator + s.baseDutyCycle) % UINT32_MOD
  plotWaveform { s with basePhaseAccumulator := acc, baseTableIndex := acc / 16777216 }

/-- ISR(TIM1_COMPA_vect) of main.c (the 1 kHz tick), restricted to the
core state: tempo counting with timeout, the mode-reset hold timer, and
the saturating speed-adjust idle counter.  DebounceSwitches and
ResetCurrentSelectionMode are external collaborators; the calls the mode
collaborator later makes back into the core appear as separate
operations. -/
def timer1Step (s : LfoState) : LfoState :=
  let s1 :=
    if s.isCountingTempo then
      let sa := { s with tempoMsCount := s.tempoMsCount + 1 }
      if sa.tempoMsCount > LFO_MIN_TEMPO then tempoCountTimeout sa else sa
    else s
  let s2 :=
    if s1.isCountingModeResetTime then
      let sb := { s1 with modeResetMsCount := s1.modeResetMsCount + 1 }
      if sb.modeResetMsCount ≥ MODE_RESET_MIN_TIME then
        { sb with isResettingMode := true, isCountingModeResetTime := false,
                  modeResetMsCount := 0 }
      else sb
    else s1
  if s2.speedAdjustMsCount < 65535 then
    { s2 with speedAdjustMsCount := s2.speedAdjustMsCount + 1 }
  else s2

/-- AdjustSpeed of signaling.c. -/
def adjustSpeed (s : LfoState) (change : Int) : LfoState :=
  let newTempo : Int := (s.baseTempo : Int) + s.tempoAdjustOffset + change
  if newTempo > (LFO_MIN_TEMPO : Int) ∨ newTempo < (LFO_MAX_TEMPO : Int) then s
  else recalculateTempo { s with tempoAdjustOffset := s.tempoAdjustOffset + change }

/-- ResetSpeedAdjustSetting of signaling.c. -/
def resetSpeedAdjustSetting (s : LfoState) : LfoState :=
  recalculateTempo { s with tempoAdjustOffset := 0 }

/-- CalcDepthTable of signaling.c as a state update: repopulate
g_depth_table for the current waveform and depth globals. -/
def calcDepthTable (s : LfoState) : LfoState :=
  { s with depthTable := calcDepthTableFun s.waveform s.depthRatio s.depthOffset }

/-- SetWaveform of signaling.c: wrap around the enum ends, then rebuild
the depth table. -/
def setWaveform (s : LfoState) (change : Int) : LfoState :=
  let w :=
    if s.waveform = Waveform.sine ∧ change < 0 then Waveform.random
    else if s.waveform = Waveform.random ∧ change > 0 then Waveform.sine
    else waveformOfNat ((waveformToNat s.waveform : Int) + change).toNat
  calcDepthTable { s with waveform := w }

/-- ResetWaveformSetting of signaling.c: set g_waveform to Sine.  (It
does not call CalcDepthTable.) -/
def resetWaveformSetting (s : LfoState) : LfoState :=
  { s with waveform := Waveform.sine }

/-- SetMultiplier of signaling.c: saturate at the enum ends; on an
actual change recompute the tempo and adjust the phase accumulator. -/
def setMultiplier (s : LfoState) (change : Int) : LfoState :=
  let m :=
    if s.multiplier = Multiplier.whole ∧ change < 0 then Multiplier.whole
    else if s.multiplier = Multiplier.sixteenth ∧ change > 0 then Multiplier.sixteenth
    else multiplierOfNat ((multiplierToNat s.multiplier : Int) + change).toNat
  if m ≠ s.multiplier then
    adjustPhaseAccumulation (recalculateTempo { s with multiplier := m })
  else s

/-- ResetMultiplierSetting of signaling.c. -/
def resetMultiplierSetting (s : LfoState) : LfoState :=
  if s.multiplier ≠ Multiplier.quarter then
    adjustPhaseAccumulation (recalculateTempo { s with multiplier := Multiplier.quarter })
  else s

/-- The new depth ratio of one SetDepth branch body:
g_depth_ratio + change_value * 5 in 8-bit arithmetic. -/
def depthStep (r : Nat) (c : Int) : Nat := (((r : Int) + c * 5) % 256).toNat

/-- The depth ratio after SetDepth: one of the three guarded branches
applies the step, otherwise the ratio is unchanged. -/
def depthRatioStep (r : Nat) (c : Int) : Nat :=
  if (5 ≤ r ∧ r ≤ 95) ∨ (0 < c ∧ r = 0) ∨ (c < 0 ∧ r = 100) then depthStep r c else r

/-- SetDepth of signaling.c: step the ratio when one of the three guards
holds, always recompute g_depth_offset from the (possibly new) ratio,
and rebuild the depth table only when a guard fired. -/
def setDepth (s : LfoState) (c : Int) : LfoState :=
  let r := depthRatioStep s.depthRatio c
  let s1 := { s with depthRatio := r, depthOffset := depthOffsetOf r }
  if (5 ≤ s.depthRatio ∧ s.depthRatio ≤ 95) ∨ (0 < c ∧ s.depthRatio = 0) ∨
     (c < 0 ∧ s.depthRatio = 100) then calcDepthTable s1 else s1

/-- ResetDepthSetting of signaling.c. -/
def resetDepthSetting (s : LfoState) : LfoState :=
  calcDepthTable { s with depthRatio := 100, depthOffset := 0 }

/-- The tap-switch-closed branch of the main loop in main.c: first or
second tap handling inside the atomic block, then the one-time random
seeding check. -/
def tapEvent (s : LfoState) : LfoState :=
  let s1 :=
    if s.isCountingTempo = false then startTempoCount (resetSignals s)
    else { stopTempoCount (resetSignals s) with hasReceivedTapInput := true }
  if s1.hasRandomSeed = false ∧ s1.hasReceivedTapInput = false then
    updateRandomNumber
      (seedRandomNumberGenerator { s1 with hasRandomSeed := true } s1.tempoMsCount)
  else s1

/-- The state of the globals at reset (C zero-initialised statics, plus
the two explicit initialisers g_base_table_index = 0xff and
g_table_index = 0, the enum/depth initialisers, PORTA driven high, and
the libc generator's initial state 1). -/
def bootState : LfoState where
  randomNumber := 0
  baseTempo := 0
  baseDutyCycle := 0
  baseTableIndex := 255
  basePhaseAccumulator := 0
  dutyCycle := 0
  tableIndex := 0
  phaseAccumulator := 0
  multiplierAlignmentIndex := 0
  waveform := Waveform.sine
  multiplier := Multiplier.quarter
  tempoAdjustOffset := 0
  depthRatio := 100
  depthOffset := 0
  depthTable := fun _ => 0
  tempoOut := true
  pwmOut := 0
  randState := 1
  lastSeed := 0
  isCountingTempo := false
  hasReceivedTapInput := false
  hasRandomSeed := false
  isCountingModeResetTime := false
  isResettingMode := false
  tempoMsCount := 0
  modeResetMsCount := 0
  speedAdjustMsCount := 0

/-- The state after main()'s initialisation sequence:
SeedRandomNumberGenerator(0); UpdateRandomNumber();
SetBaseTempo(DEFAULT_TEMPO). -/
def initState : LfoState :=
  setBaseTempo (updateRandomNumber (seedRandomNumberGenerator bootState 0)) DEFAULT_TEMPO

/-- The core operations an execution can interleave: the three interrupt
or loop events of main.c and the public setting functions of
signaling.c. -/
inductive Op where
  | tap
  | msTick
  | sampleTick
  | syncRise
  | syncFall
  | opSetBaseTempo (ms : Nat)
  | opSetWaveform (c : Int)
  | opResetWaveformSetting
  | opSetMultiplier (c : Int)
  | opResetMultiplierSetting
  | opSetDepth (c : Int)
  | opResetDepthSetting
  | opAdjustSpeed (d : Int)
  | opResetSpeedAdjustSetting
  | opResetSignals
  | opAlignWaveform

/-- Apply one core operation.  A rising sync edge calls StopTempoCount
and a falling one StartTempoCount, as in ISR(PCINT1_vect). -/
def applyOp (s : LfoState) : Op → LfoState
  | .tap => tapEvent s
  | .msTick => timer1Step s
  | .sampleTick => timer0Step s
  | .syncRise => stopTempoCount s
  | .syncFall => startTempoCount s
  | .opSetBaseTempo ms => setBaseTempo s ms
  | .opSetWaveform c => setWaveform s c
  | .opResetWaveformSetting => resetWaveformSetting s
  | .opSetMultiplier c => setMultiplier s c
  | .opResetMultiplierSetting => resetMultiplierSetting s
  | .opSetDepth c => setDepth s c
  | .opResetDepthSetting => resetDepthSetting s
  | .opAdjustSpeed d => adjustSpeed s d
  | .opResetSpeedAdjustSetting => resetSpeedAdjustSetting s
  | .opResetSignals => resetSignals s
  | .opAlignWaveform => alignWaveform s

/-- Run a sequence of core operations from the initialised state. -/
def runOps (ops : List Op) : LfoState := ops.foldl applyOp initState

/-- Number of ticks, among the next n sample ticks from s, at which the
base table index wraps (previous index greater than the new one): the
completions of a base cycle. -/
def countBaseWraps : Nat → LfoState → Nat
  | 0, _ => 0
  | n + 1, s =>
      let t := timer0Step s
      (if s.baseTableIndex > t.baseTableIndex then 1 else 0) + countBaseWraps n t

/-- Number of ticks, among the next n sample ticks from s, at which the
TEMPO_OUT level changes (the tempo-indicator toggles). -/
def countIndicatorToggles : Nat → LfoState → Nat
  | 0, _ => 0
  | n + 1, s =>
      let t := timer0Step s
      (if s.tempoOut ≠ t.tempoOut then 1 else 0) + countIndicatorToggles n t

/-- The per-tick observation trace of a run that receives no input at
all: the value of the observation g after each of the first n sample
ticks from the initialised state. -/
def obsTrace (g : LfoState → Nat) (n : Nat) : List Nat :=
  (List.range n).map (fun k => g (timer0Step^[k + 1] initState))

/-- Scenario state for C1: tempo 50 ms, multiplier stepped five times
from Quarter up to Sixteenth (ratio 4.0), then a tap-style signal reset;
base duty cycle 2748760, working duty cycle 10995040. -/
def sC1 : LfoState :=
  resetSignals ((fun t => setMultiplier t 1)^[5] (setBaseTempo initState 50))

/-- Scenario state for C2: waveform stepped four times from Sine to
Square, then ten SetDepth(-1) steps taking DepthRatio from 100 to 50
(DepthOffset 127); the last step rebuilt the depth table. -/
def sC2 : LfoState :=
  (fun t => setDepth t (-1))^[10] ((fun t => setWaveform t 1)^[4] initState)

/-- Scenario state for C3, first tap from the initialised state. -/
def sC3a : LfoState := tapEvent initState

/-- Scenario state for C3, 120 one-millisecond ticks after the first
tap. -/
def sC3b : LfoState := timer1Step^[120] sC3a

/-- Scenario state for C3, the second tap closing a 120 ms interval. -/
def sC3c : LfoState := tapEvent sC3b

/-- Scenario state for C4: waveform stepped four times from Sine to
Square (the table now holds the Square samples), then
ResetWaveformSetting. -/
def sC4 : LfoState :=
  resetWaveformSetting ((fun t => setWaveform t 1)^[4] initState)

/-- Scenario state for C9: the initialised state with BaseTempo 500. -/
def sBase500 : LfoState := { initState with baseTempo := 500 }

/-- waveformOfNat inverts waveformToNat. -/
lemma waveformOfNat_waveformToNat (w : Waveform) : waveformOfNat (waveformToNat w) = w := by
  cases w <;> rfl

/-- The numeric value of a waveform is below the enum count. -/
lemma waveformToNat_lt (w : Waveform) : waveformToNat w < 7 := by
  cases w <;> decide

/-- AlignWaveform leaves the alignment index in [1, 12], whatever the
input state. -/
lemma alignWaveform_alignment_bounds (s : LfoState) :
    1 ≤ (alignWaveform s).multiplierAlignmentIndex ∧
      (alignWaveform s).multiplierAlignmentIndex ≤ 12 := by
  unfold alignWaveform MULTIPLIER_ALIGNMENT_OFFSET
  dsimp only
  split_ifs <;> omega

/-- StartTempoCount leaves the alignment index at most 12. -/
lemma startTempoCount_alignment_le (s : LfoState) :
    (startTempoCount s).multiplierAlignmentIndex ≤ 12 :=
  (alignWaveform_alignment_bounds _).2

/-- StopTempoCount leaves the alignment index at most 12. -/
lemma stopTempoCount_alignment_le (s : LfoState) :
    (stopTempoCount s).multiplierAlignmentIndex ≤ 12 :=
  (alignWaveform_alignment_bounds _).2

/-- The tap handler leaves the alignment index at most 12. -/
lemma tapEvent_alignment_le (s : LfoState) :
    (tapEvent s).multiplierAlignmentIndex ≤ 12 := by
  unfold tapEvent
  dsimp only
  split_ifs <;> exact (alignWaveform_alignment_bounds _).2

/-- PlotWaveform does not touch the alignment index. -/
lemma plotWaveform_alignment (s : LfoState) :
    (plotWaveform s).multiplierAlignmentIndex = s.multiplierAlignmentIndex := by
  unfold plotWaveform updateRandomNumber
  dsimp only
  split_ifs <;> rfl

/-- The sample tick does not touch the alignment index. -/
lemma timer0Step_alignment (s : LfoState) :
    (timer0Step s).multiplierAlignmentIndex = s.multiplierAlignmentIndex :=
  plotWaveform_alignment _

/-- The 1 kHz tick does not touch the alignment index. -/
lemma timer1Step_alignment (s : LfoState) :
    (timer1Step s).multiplierAlignmentIndex = s.multiplierAlignmentIndex := by
  unfold timer1Step tempoCountTimeout
  dsimp only
  split_ifs <;> rfl

/-- SetBaseTempo does not touch the alignment index. -/
lemma setBaseTempo_alignment (s : LfoState) (ms : Nat) :
    (setBaseTempo s ms).multiplierAlignmentIndex = s.multiplierAlignmentIndex := by
  unfold setBaseTempo recalculateTempo
  dsimp only
  split_ifs <;> rfl

/-- SetMultiplier does not touch the alignment index. -/
lemma setMultiplier_alignment (s : LfoState) (c : Int) :
    (setMultiplier s c).multiplierAlignmentIndex = s.multiplierAlignmentIndex := by
  unfold setMultiplier adjustPhaseAccumulation recalculateTempo
  dsimp only
  split_ifs <;> rfl

/-- ResetMultiplierSetting does not touch the alignment index. -/
lemma resetMultiplierSetting_alignment (s : LfoState) :
    (resetMultiplierSetting s).multiplierAlignmentIndex = s.multiplierAlignmentIndex := by
  unfold resetMultiplierSetting adjustPhaseAccumulation recalculateTempo
  dsimp only
  split_ifs <;> rfl

/-- SetDepth does not touch the alignment index. -/
lemma setDepth_alignment (s : LfoState) (c : Int) :
    (setDepth s c).multiplierAlignmentIndex = s.multiplierAlignmentIndex := by
  unfold setDepth calcDepthTable
  dsimp only
  split_ifs <;> rfl

/-- AdjustSpeed does not touch the alignment index. -/
lemma adjustSpeed_alignment (s : LfoState) (d : Int) :
    (adjustSpeed s d).multiplierAlignmentIndex = s.multiplierAlignmentIndex := by
  unfold adjustSpeed recalculateTempo
  dsimp only
  split_ifs <;> rfl

/-- Every core operation keeps the alignment index at most 12. -/
lemma applyOp_alignment_le (s : LfoState) (op : Op)
    (h : s.multiplierAlignmentIndex ≤ 12) :
    (applyOp s op).multiplierAlignmentIndex ≤ 12 := by
  cases op with
  | tap => exact tapEvent_alignment_le s
  | msTick => rw [applyOp, timer1Step_alignment]; exact h
  | sampleTick => rw [applyOp, timer0Step_alignment]; exact h
  | syncRise => exact stopTempoCount_alignment_le s
  | syncFall => exact startTempoCount_alignment_le s
  | opSetBaseTempo ms => rw [applyOp, setBaseTempo_alignment]; exact h
  | opSetWaveform c => exact h
  | opResetWaveformSetting => exact h
  | opSetMultiplier c => rw [applyOp, setMultiplier_alignment]; exact h
  | opResetMultiplierSetting => rw [applyOp, resetMultiplierSetting_alignment]; exact h
  | opSetDepth c => rw [applyOp, setDepth_alignment]; exact h
  | opResetDepthSetting => exact h
  | opAdjustSpeed d => rw [applyOp, adjustSpeed_alignment]; exact h
  | opResetSpeedAdjustSetting => exact h
  | opResetSignals => exact Nat.zero_le 12
  | opAlignWaveform => exact (alignWaveform_alignment_bounds s).2

/-- Folding core operations preserves the alignment-index bound. -/
lemma foldl_alignment_le :
    ∀ (ops : List Op) (s : LfoState), s.multiplierAlignmentIndex ≤ 12 →
      (ops.foldl applyOp s).multiplierAlignmentIndex ≤ 12 := by
  intro ops
  induction ops with
  | nil => intro s h; exact h
  | cons o t ih => intro s h; exact ih _ (applyOp_alignment_le s o h)

/-- The depth ratio SetDepth leaves behind is depthRatioStep. -/
lemma setDepth_depthRatio (s : LfoState) (c : Int) :
    (setDepth s c).depthRatio = depthRatioStep s.depthRatio c := by
  unfold setDepth calcDepthTable
  dsimp only
  split_ifs <;> rfl

/-- Iterating SetDepth acts on the depth ratio as iterating
depthRatioStep. -/
lemma setDepth_iterate_depthRatio (c : Int) :
    ∀ (k : Nat) (s : LfoState),
      ((fun t => setDepth t c)^[k] s).depthRatio =
        (fun r => depthRatioStep r c)^[k] s.depthRatio := by
  intro k
  induction k with
  | zero => intro s; rfl
  | succ n ih =>
      intro s
      rw [Function.iterate_succ_apply, Function.iterate_succ_apply]
      have := ih (setDepth s c)
      rw [this, setDepth_depthRatio]

/-- One upward step from a reachable, unsaturated ratio adds 5. -/
lemma depthRatioStep_up (r : Nat) (h5 : r % 5 = 0) (h95 : r ≤ 95) :
    depthRatioStep r 1 = r + 5 := by
  unfold depthRatioStep depthStep
  split_ifs with h
  · omega
  · exfalso; omega

/-- One downward step from a reachable ratio of at least 5 subtracts
5. -/
lemma depthRatioStep_down (r : Nat) (h5 : r % 5 = 0) (hge : 5 ≤ r) (hle : r ≤ 100) :
    depthRatioStep r (-1) = r - 5 := by
  unfold depthRatioStep depthStep
  split_ifs with h
  · omega
  · exfalso; omega

/-- k upward steps add 5k when the end value stays at most 100. -/
lemma depthRatioStep_up_iterate :
    ∀ (k r : Nat), r % 5 = 0 → r + 5 * k ≤ 100 →
      (fun r => depthRatioStep r 1)^[k] r = r + 5 * k := by
  intro k
  induction k with
  | zero => intro r _ _; simp
  | succ n ih =>
      intro r h5 hle
      rw [Function.iterate_succ_apply]
      have h1 : depthRatioStep r 1 = r + 5 := depthRatioStep_up r h5 (by omega)
      rw [h1, ih (r + 5) (by omega) (by omega)]
      omega

/-- k downward steps subtract 5k when 5k is at most the start value. -/
lemma depthRatioStep_down_iterate :
    ∀ (k r : Nat), r % 5 = 0 → 5 * k ≤ r → r ≤ 100 →
      (fun r => depthRatioStep r (-1))^[k] r = r - 5 * k := by
  intro k
  induction k with
  | zero => intro r _ _ _; simp
  | succ n ih =>
      intro r h5 hge hle
      rw [Function.iterate_succ_apply]
      have h1 : depthRatioStep r (-1) = r - 5 := depthRatioStep_down r h5 (by omega) hle
      rw [h1, ih (r - 5) (by omega) (by omega) (by omega)]
      omega

/-- C3: The claim says the completing tap of the first pair seeds the
generator with the measured interval and latches has_random_seed.  The
code instead runs the seeding block already at the first tap, after
StartTempoCount has just cleared TempoMsCount, so srand receives 0 and
has_random_seed is latched there; at the completing tap
has_received_tap_input has just been set, so no seeding with the
measured interval ever happens.  This theorem evaluates the two-tap
scenario: after the first tap the seed flag is set and the last srand
argument is 0; after the closing tap 120 ms later the tempo is
committed as 120 but the generator state is untouched and the last
srand argument is still 0. -/
theorem c3_first_tap_seeds_zero_eval :
    sC3a.hasRandomSeed = true ∧ sC3a.lastSeed = 0 ∧
    sC3b.tempoMsCount = 120 ∧
    sC3c.baseTempo = 120 ∧ sC3c.lastSeed = 0 ∧
    sC3c.randState = sC3a.randState ∧ sC3c.hasReceivedTapInput = true := by
  decide

/-- C4: evaluation of the claim's failing scenario.  With the waveform
stepped to Square (depth table rebuilt to the Square samples),
ResetWaveformSetting sets the waveform back to Sine but does not call
CalcDepthTable: entry 191 still holds the Square value 255, while a
fresh Sine table at the current depth ratio holds 131 there. -/
theorem c4_reset_waveform_stale_table_eval :
    sC4.waveform = Waveform.sine ∧ sC4.depthRatio = 100 ∧
    sC4.depthTable 191 = 255 ∧
    calcDepthTableFun Waveform.sine sC4.depthRatio sC4.depthOffset 191 = 131 ∧
    sC4.depthTable 191 ≠ calcDepthTableFun Waveform.sine sC4.depthRatio sC4.depthOffset 191 := by
  decide

/-- C5 counterexample: a concrete refresh of the random number (the
first one after power-up initialisation) yields 124, which is not a
multiple of 32, refuting the claim that every refresh yields k * 32. -/
theorem c5_counterexample_refresh_not_multiple_of_32 :
    (updateRandomNumber initState).randomNumber = 124 ∧ ¬(124 % 32 = 0) := by
  decide

/-- C5 amended: every refresh of the random number yields
k * WAVEFORM_STEP_SIZE for some k in 0..7, and WAVEFORM_STEP_SIZE is
0xff / 8 = 31 (not 32), so the quantized levels are
{0, 31, 62, 93, 124, 155, 186, 217}. -/
theorem c5_random_number_quantized :
    ∀ s : LfoState, ∃ kk : Nat, kk < 8 ∧
      (updateRandomNumber s).randomNumber = kk * WAVEFORM_STEP_SIZE ∧
      WAVEFORM_STEP_SIZE = 31 :=
  fun s =>
    ⟨randValue (randNext s.randState) % WAVEFORM_RANDOM_STEP_COUNT,
      Nat.mod_lt _ (by decide), rfl, rfl⟩

/-- C6 counterexample: twelve consecutive falling sync edges (each one a
StartTempoCount, hence an AlignWaveform) drive MultiplierAlignmentIndex
to 12, outside the claimed range [0, 11]. -/
theorem c6_counterexample_alignment_index_reaches_12 :
    (runOps (List.replicate 12 Op.syncFall)).multiplierAlignmentIndex = 12 ∧
    ¬((runOps (List.replicate 12 Op.syncFall)).multiplierAlignmentIndex ≤ 11) := by
  decide

/-- C6 amended: after any sequence of core operations from the
initialised state MultiplierAlignmentIndex lies in [0, 12], and
immediately after any call to AlignWaveform it lies in [1, 12]; the
value 12 is only wrapped to 0 at the start of the next AlignWaveform
call. -/
theorem c6_alignment_index_at_most_12 :
    (∀ ops : List Op, (runOps ops).multiplierAlignmentIndex ≤ 12) ∧
    (∀ s : LfoState, 1 ≤ (alignWaveform s).multiplierAlignmentIndex ∧
      (alignWaveform s).multiplierAlignmentIndex ≤ 12) :=
  ⟨fun ops => foldl_alignment_le ops initState (by decide),
   alignWaveform_alignment_bounds⟩

/-- C7 counterexample: from the initial state (DepthRatio 100, a
reachable value), one SetDepth(+1) followed by one SetDepth(-1) yields
95, not the original 100: the upward step saturates silently and the
downward step then moves away. -/
theorem c7_counterexample_roundtrip_fails_at_100 :
    (setDepth (setDepth initState 1) (-1)).depthRatio = 95 ∧
    initState.depthRatio = 100 := by
  decide

/-- C7 amended: the SetDepth round trip restores DepthRatio provided the
stepped phase does not saturate: for a reachable ratio (a multiple of 5,
at most 100), k up-steps followed by k down-steps restore the ratio when
ratio + 5k stays at most 100, and k down-steps followed by k up-steps
restore it when 5k is at most the ratio. -/
theorem c7_depth_roundtrip_without_saturation (s : LfoState) (k : Nat) :
    (s.depthRatio % 5 = 0 → s.depthRatio + 5 * k ≤ 100 →
      ((fun t => setDepth t (-1))^[k] ((fun t => setDepth t 1)^[k] s)).depthRatio =
        s.depthRatio) ∧
    (s.depthRatio % 5 = 0 → 5 * k ≤ s.depthRatio → s.depthRatio ≤ 100 →
      ((fun t => setDepth t 1)^[k] ((fun t => setDepth t (-1))^[k] s)).depthRatio =
        s.depthRatio) := by
  constructor
  · intro h5 hle
    rw [setDepth_iterate_depthRatio, setDepth_iterate_depthRatio,
      depthRatioStep_up_iterate k s.depthRatio h5 hle,
      depthRatioStep_down_iterate k (s.depthRatio + 5 * k) (by omega) (by omega) (by omega)]
    omega
  · intro h5 hge hle
    rw [setDepth_iterate_depthRatio, setDepth_iterate_depthRatio,
      depthRatioStep_down_iterate k s.depthRatio h5 hge hle,
      depthRatioStep_up_iterate k (s.depthRatio - 5 * k) (by omega) (by omega)]
    omega

/-- C7 witness: the amended round trip at the concrete initialised state
(DepthRatio 100), going down two steps and back up two steps. -/
theorem c7_witness_roundtrip_down_up :
    (initState.depthRatio % 5 = 0 ∧ 5 * 2 ≤ initState.depthRatio ∧
      initState.depthRatio ≤ 100) ∧
    ((fun t => setDepth t 1)^[2] ((fun t => setDepth t (-1))^[2] initState)).depthRatio =
      initState.depthRatio :=
  ⟨by decide,
   (c7_depth_roundtrip_without_saturation initState 2).2 (by decide) (by decide) (by decide)⟩

/-- C8 counterexample: the boundary test accepts, not rejects, the exact
endpoints: SetBaseTempo(LFO_MIN_TEMPO) and SetBaseTempo(LFO_MAX_TEMPO)
from the initialised state (BaseTempo 1000) both commit the endpoint as
the new BaseTempo. -/
theorem c8_counterexample_endpoints_accepted :
    (setBaseTempo initState LFO_MIN_TEMPO).baseTempo = LFO_MIN_TEMPO ∧
    (setBaseTempo initState LFO_MAX_TEMPO).baseTempo = LFO_MAX_TEMPO ∧
    initState.baseTempo = DEFAULT_TEMPO := by
  decide

/-- C8 amended: SetBaseTempo silently rejects exactly the requests
strictly outside [LFO_MAX_TEMPO, LFO_MIN_TEMPO], leaving the whole state
(hence BaseTempo, TempoAdjustOffset and both duty cycles) unchanged; the
strict > and < boundary tests accept the exact endpoints; and whenever a
call changes the state at all, the resulting BaseTempo lies in the
closed range. -/
theorem c8_reject_out_of_range (s : LfoState) (ms : Nat) :
    ((ms > LFO_MIN_TEMPO ∨ ms < LFO_MAX_TEMPO) → setBaseTempo s ms = s) ∧
    (setBaseTempo s ms ≠ s →
      LFO_MAX_TEMPO ≤ (setBaseTempo s ms).baseTempo ∧
      (setBaseTempo s ms).baseTempo ≤ LFO_MIN_TEMPO) := by
  constructor
  · intro h
    unfold setBaseTempo
    rw [if_pos h]
  · intro hne
    by_cases h1 : ms > LFO_MIN_TEMPO ∨ ms < LFO_MAX_TEMPO
    · exact absurd (by unfold setBaseTempo; rw [if_pos h1]) hne
    · by_cases h2 : s.baseTempo > ms + 2 ∨ s.baseTempo < ms - 2
      · have hbase : (setBaseTempo s ms).baseTempo = ms := by
          unfold setBaseTempo
          rw [if_neg h1, if_pos h2]
          rfl
        rw [hbase]
        unfold LFO_MIN_TEMPO LFO_MAX_TEMPO at h1 ⊢
        omega
      · exact absurd (by unfold setBaseTempo; rw [if_neg h1, if_neg h2]) hne

/-- C8 witness: the rejection branch of the amended theorem at the
concrete out-of-range request 20000 ms. -/
theorem c8_witness_reject_20000 :
    ((20000 : Nat) > LFO_MIN_TEMPO ∨ (20000 : Nat) < LFO_MAX_TEMPO) ∧
    setBaseTempo initState 20000 = initState :=
  ⟨Or.inl (by decide), (c8_reject_out_of_range initState 20000).1 (Or.inl (by decide))⟩

/-- C9: for every in-range request, SetBaseTempo within 2 ms of the
current BaseTempo returns with the state (hence BaseTempo,
TempoAdjustOffset and both duty cycles) unchanged, while a request 3 ms
or more away commits the new tempo, clears TempoAdjustOffset and
recomputes both duty cycles from it. -/
theorem c9_hysteresis (s : LfoState) (ms : Nat)
    (hlo : LFO_MAX_TEMPO ≤ ms) (hhi : ms ≤ LFO_MIN_TEMPO) :
    ((s.baseTempo ≤ ms + 2 ∧ ms ≤ s.baseTempo + 2) → setBaseTempo s ms = s) ∧
    ((ms + 3 ≤ s.baseTempo ∨ s.baseTempo + 3 ≤ ms) →
      setBaseTempo s ms =
        recalculateTempo { s with baseTempo := ms, tempoAdjustOffset := 0 } ∧
      (setBaseTempo s ms).baseTempo = ms ∧
      (setBaseTempo s ms).tempoAdjustOffset = 0 ∧
      (setBaseTempo s ms).baseDutyCycle = dutyFromTempo ms ∧
      (setBaseTempo s ms).dutyCycle = applyMultiplierRatio s.multiplier (dutyFromTempo ms)) := by
  have hlo' : 50 ≤ ms := hlo
  have hhi' : ms ≤ 10000 := hhi
  have hr : ¬(ms > LFO_MIN_TEMPO ∨ ms < LFO_MAX_TEMPO) := by
    show ¬(ms > 10000 ∨ ms < 50)
    omega
  constructor
  · intro hnear
    have hc : ¬(s.baseTempo > ms + 2 ∨ s.baseTempo < ms - 2) := by omega
    unfold setBaseTempo
    rw [if_neg hr, if_neg hc]
  · intro hfar
    have hc : s.baseTempo > ms + 2 ∨ s.baseTempo < ms - 2 := by omega
    have heq : setBaseTempo s ms =
        recalculateTempo { s with baseTempo := ms, tempoAdjustOffset := 0 } := by
      unfold setBaseTempo
      rw [if_neg hr, if_pos hc]
    have hmsto : ((ms : Int) + 0).toNat = ms := by omega
    refine ⟨heq, by rw [heq]; rfl, by rw [heq]; rfl, ?_, ?_⟩
    · rw [heq]
      show dutyFromTempo (effectiveTempo { s with baseTempo := ms, tempoAdjustOffset := 0 }) =
        dutyFromTempo ms
      unfold effectiveTempo
      rw [show (({ s with baseTempo := ms, tempoAdjustOffset := 0 } : LfoState).baseTempo : Int) +
        ({ s with baseTempo := ms, tempoAdjustOffset := 0 } : LfoState).tempoAdjustOffset =
        (ms : Int) + 0 from rfl, hmsto]
    · rw [heq]
      show applyMultiplierRatio s.multiplier
          (dutyFromTempo (effectiveTempo { s with baseTempo := ms, tempoAdjustOffset := 0 })) =
        applyMultiplierRatio s.multiplier (dutyFromTempo ms)
      unfold effectiveTempo
      rw [show (({ s with baseTempo := ms, tempoAdjustOffset := 0 } : LfoState).baseTempo : Int) +
        ({ s with baseTempo := ms, tempoAdjustOffset := 0 } : LfoState).tempoAdjustOffset =
        (ms : Int) + 0 from rfl, hmsto]

/-- C9 witness: the spec scenario S4 at BaseTempo 500:
SetBaseTempo(501) leaves the state unchanged and SetBaseTempo(503)
commits 503. -/
theorem c9_witness_s4 :
    (LFO_MAX_TEMPO ≤ 501 ∧ (501 : Nat) ≤ LFO_MIN_TEMPO ∧
      sBase500.baseTempo ≤ 501 + 2 ∧ (501 : Nat) ≤ sBase500.baseTempo + 2 ∧
      sBase500.baseTempo + 3 ≤ 503) ∧
    setBaseTempo sBase500 501 = sBase500 ∧
    (setBaseTempo sBase500 503).baseTempo = 503 :=
  ⟨by decide,
   (c9_hysteresis sBase500 501 (by decide) (by decide)).1 (by decide),
   (((c9_hysteresis sBase500 503 (by decide) (by decide)).2 (by decide)).2).1⟩

/-- C10: until user interaction, the Random waveform is deterministic
across power-ups.  main() always seeds the generator with the constant 0
(lastSeed of the initialised state is 0), and the per-tick observation
trace of a run receiving no tap or sync input is a fixed function of the
number of elapsed sample ticks: any two such runs agree on their common
prefix, for every observation of the state (in particular the
RandomNumber value and the PWM output). -/
theorem c10_deterministic_before_interaction :
    initState.lastSeed = 0 ∧
    ∀ (g : LfoState → Nat) (n m : Nat), n ≤ m →
      ∃ t, obsTrace g n ++ t = obsTrace g m := by
  refine ⟨by decide, ?_⟩
  intro g n m h
  refine ⟨((List.range (m - n)).map (n + ·)).map (fun k => g (timer0Step^[k + 1] initState)), ?_⟩
  unfold obsTrace
  rw [← List.map_append, ← List.range_add, Nat.add_sub_cancel' h]

/-- C10 witness: the trace-agreement property at the concrete lengths 2
and 4, observing RandomNumber. -/
theorem c10_witness_trace_agreement_2_4 :
    (2 : Nat) ≤ 4 ∧
    ∃ t, obsTrace (fun s => s.randomNumber) 2 ++ t = obsTrace (fun s => s.randomNumber) 4 :=
  ⟨by decide, c10_deterministic_before_interaction.2 (fun s => s.randomNumber) 2 4 (by decide)⟩

/-- C1: evaluation of the claim's failing scenario.  The ISR toggles
TEMPO_OUT when the WORKING table index wraps (PlotWaveform compares the
previous and new g_table_index), not when the base index wraps, so the
indicator follows the multiplied waveform, not the base tempo.  In sC1
(tempo 50 ms, multiplier Sixteenth, ratio 4.0) the 1563 sample ticks of
exactly one complete base cycle contain one base-index wrap but four
indicator toggles. -/
theorem c1_indicator_follows_working_index_eval :
    sC1.multiplier = Multiplier.sixteenth ∧
    countBaseWraps 1563 sC1 = 1 ∧
    countIndicatorToggles 1563 sC1 = 4 := by
  decide

/-- Exhaustive check of the depth-table characterisation over all
reachable depth ratios (multiples of 5 up to 100), waveforms, and table
indices. -/
lemma depthTable_characterisation_aux :
    ∀ k < 21, ∀ wn < 7, ∀ i < 256,
      calcDepthTableFun (waveformOfNat wn) (5 * k) (depthOffsetOf (5 * k)) i =
        if (waveformOfNat wn = Waveform.square ∧ 128 ≤ i) ∨
           (waveformOfNat wn = Waveform.quadPulse ∧
             (i < 16 ∨ (32 ≤ i ∧ i < 48) ∨ (64 ≤ i ∧ i < 80) ∨ (96 ≤ i ∧ i < 112)))
        then 255
        else calcSignalDepth (5 * k) (depthOffsetOf (5 * k)) (specRawShape (waveformOfNat wn) i) := by
  decide

/-- C2 counterexample: after the rebuild performed by stepping the depth
down to 50 with the Square waveform selected (state sC2), the stored
entry at index 128 is the raw 255, whereas CalcSignalDepth applied to
the raw shape value 255 gives DepthOffset + 127 = 254: the claim's
universally quantified equality fails at this rebuilt table. -/
theorem c2_counterexample_square_entry_not_scaled :
    sC2.waveform = Waveform.square ∧ sC2.depthRatio = 50 ∧ sC2.depthOffset = 127 ∧
    sC2.depthTable 128 = 255 ∧
    calcSignalDepth sC2.depthRatio sC2.depthOffset (specRawShape sC2.waveform 128) = 254 ∧
    sC2.depthTable 128 ≠
      calcSignalDepth sC2.depthRatio sC2.depthOffset (specRawShape sC2.waveform 128) := by
  decide

/-- C2 amended: for every reachable depth ratio (a multiple of 5 up to
100) and every index, the rebuilt table entry equals CalcSignalDepth of
the waveform's raw shape value, EXCEPT the raw-255 entries of Square
(the high half) and QuadPulse (the four pulse windows), which store the
raw 255 without depth scaling. -/
theorem c2_depth_table_entries (r k i : Nat) (w : Waveform)
    (hr : r = 5 * k) (hk : k ≤ 20) (hi : i < 256) :
    calcDepthTableFun w r (depthOffsetOf r) i =
      if (w = Waveform.square ∧ 128 ≤ i) ∨
         (w = Waveform.quadPulse ∧
           (i < 16 ∨ (32 ≤ i ∧ i < 48) ∨ (64 ≤ i ∧ i < 80) ∨ (96 ≤ i ∧ i < 112)))
      then 255
      else calcSignalDepth r (depthOffsetOf r) (specRawShape w i) := by
  subst hr
  have h := depthTable_characterisation_aux k (by omega) (waveformToNat w)
    (waveformToNat_lt w) i hi
  rwa [waveformOfNat_waveformToNat] at h

/-- C2 witness: the amended characterisation at ratio 50, waveform
Square, index 128 (an excepted raw-255 entry). -/
theorem c2_witness_square_at_50 :
    ((50 : Nat) = 5 * 10 ∧ (10 : Nat) ≤ 20 ∧ (128 : Nat) < 256) ∧
    calcDepthTableFun Waveform.square 50 (depthOffsetOf 50) 128 =
      if (Waveform.square = Waveform.square ∧ 128 ≤ 128) ∨
         (Waveform.square = Waveform.quadPulse ∧
           (128 < 16 ∨ (32 ≤ 128 ∧ 128 < 48) ∨ (64 ≤ 128 ∧ 128 < 80) ∨
             (96 ≤ 128 ∧ 128 < 112)))
      then 255
      else calcSignalDepth 50 (depthOffsetOf 50) (specRawShape Waveform.square 128) :=
  ⟨by decide, c2_depth_table_entries 50 10 128 Waveform.square (by decide) (by decide) (by decide)⟩
